import Mathlib

/-!
Verification of the ICP Waters template-import pipeline
(`thematic_report_2023/utils.py`) against its specification.

The pandas dataframes are embedded as Lean lists of records.  Numeric
values (float64 in the source) are modelled as rationals; a possibly-NaN
cell is an `Option`.  Calendar dates are modelled abstractly as `Nat`
ordinals (the pipeline only ever compares dates for equality or order).
Python `AssertionError`s are modelled by `Except String`.
-/

set_option autoImplicit false

namespace ICPW

/-! ## Long observations (output of `wide_to_long` / `extract_lod_flags`)

A long observation carries `(station_id, date, method_id, value, flag1)`.
The LOD flag column holds the literal marker strings used by the source
("<" for below-LOD, ">" for above-LOD) or NaN (`none`). -/

abbrev Key := Int × Nat × Int

structure Obs where
  station_id : Int
  date : Nat
  method_id : Int
  value : Option ℚ
  flag1 : Option String
  deriving DecidableEq

def Obs.key (r : Obs) : Key := (r.station_id, r.date, r.method_id)

/-! ## First-occurrence deduplication (pandas `drop_duplicates(keep="first")`)

`dedupBy f l` keeps the first-occurrence row for every distinct key `f x`,
preserving row order, exactly as `DataFrame.drop_duplicates` does.  The
accumulator holds the keys already seen. -/

def dedupByAux {α β : Type} [DecidableEq β] (f : α → β) : List β → List α → List α
  | _, [] => []
  | seen, x :: xs =>
    if f x ∈ seen then dedupByAux f seen xs
    else x :: dedupByAux f (f x :: seen) xs

def dedupBy {α β : Type} [DecidableEq β] (f : α → β) (l : List α) : List α :=
  dedupByAux f [] l

/-! ## Group-by machinery for the "mean" policy

pandas `groupby(["station_id", "date", "method_id"])` sorts the distinct
keys (default `sort=True`); we model the sort as an insertion sort over the
lexicographic key order.  `aggregate({"value": "mean", "flag1": "first"})`
takes the mean of the non-NaN values of the group (NaN when all are NaN)
and the first non-NaN flag (NaN when all are NaN): both pandas aggregations
skip nulls. -/

def keyLe (a b : Key) : Bool :=
  if a.1 < b.1 then true
  else if b.1 < a.1 then false
  else if a.2.1 < b.2.1 then true
  else if b.2.1 < a.2.1 then false
  else a.2.2 ≤ b.2.2

def insertSorted (k : Key) : List Key → List Key
  | [] => [k]
  | x :: xs => if keyLe k x then k :: x :: xs else x :: insertSorted k xs

def sortKeys : List Key → List Key
  | [] => []
  | k :: ks => insertSorted k (sortKeys ks)

def meanOpt (vs : List (Option ℚ)) : Option ℚ :=
  if vs.filterMap id = [] then none
  else some ((vs.filterMap id).sum / ((vs.filterMap id).length : ℚ))

def firstAgg {α : Type} (vs : List (Option α)) : Option α :=
  (vs.filterMap id).head?

def groupRow (df : List Obs) (k : Key) : Obs :=
  let grp := df.filter (fun r => decide (r.key = k))
  ⟨k.1, k.2.1, k.2.2, meanOpt (grp.map Obs.value), firstAgg (grp.map Obs.flag1)⟩

def groupMeanDedup (df : List Obs) : List Obs :=
  (sortKeys (dedupBy id (df.map Obs.key))).map (groupRow df)

def drop_duplicates (df : List Obs) : List Obs :=
  dedupBy Obs.key df

/-- Model of `remove_duplicates` from the source: asserts the policy is
`mean` or `drop`, then either group-averages or keeps the first row per
`(station_id, date, method_id)` key. -/
def remove_duplicates (how : String) (df : List Obs) : Except String (List Obs) :=
  if how = "mean" then .ok (groupMeanDedup df)
  else if how = "drop" then .ok (drop_duplicates df)
  else .error ("how must be either mean or drop.")

/-! ## Flag and value extraction (`extract_lod_flags`)

A long row before extraction holds the raw cell rendered as text (the
source applies `str(...)` to the cell before inspecting it).  The row
function `f` flags "<" when the text contains `<`, else ">" when it
contains `>`, else NaN.  The value column is then replaced by the leftmost
match of the regular expression `([-+]?\d*\.\d+|\d+)` coerced to float
(NaN when nothing matches); we model floats as rationals. -/

structure LongRaw where
  station_id : Int
  date : Nat
  method_id : Int
  value : String
  deriving DecidableEq

def flagOf (s : String) : Option String :=
  if ('<') ∈ s.data then some ("<")
  else if ('>') ∈ s.data then some (">")
  else none

/-- Longest digit prefix and the remaining characters. -/
def takeDigits : List Char → List Char × List Char
  | [] => ([], [])
  | c :: cs =>
    if c.isDigit then
      let p := takeDigits cs
      (c :: p.1, p.2)
    else ([], c :: cs)

/-- Match the sub-pattern `\d*\.\d+` at the head of the input.  Greedy
digit runs need no backtracking here: a shorter run of `\d*` would leave a
digit, not the required dot, as the next character. -/
def matchFrac (s : List Char) : Option (List Char) :=
  let p := takeDigits s
  match p.2 with
  | [] => none
  | c :: r2 =>
    if c = '.' then
      let q := takeDigits r2
      if q.1 = [] then none else some (p.1 ++ c :: q.1)
    else none

/-- Match the first alternative `[-+]?\d*\.\d+` at the head of the input.
When the leading character is a sign but no fractional number follows, the
sign-less retry also fails at this position (a sign character can start
neither `\d*\.` nor `\d+`), so no backtracking is needed. -/
def matchAlt1 : List Char → Option (List Char)
  | [] => none
  | c :: cs =>
    if c = '-' ∨ c = '+' then (matchFrac cs).map (fun m => c :: m)
    else matchFrac (c :: cs)

/-- Match the second alternative `\d+` at the head of the input. -/
def matchInt (s : List Char) : Option (List Char) :=
  let p := takeDigits s
  if p.1 = [] then none else some p.1

/-- Python `re` alternation: try the first alternative, then the second. -/
def matchNumAt (s : List Char) : Option (List Char) :=
  match matchAlt1 s with
  | some m => some m
  | none => matchInt s

/-- Leftmost match: scan positions left to right. -/
def findNum : List Char → Option (List Char)
  | [] => none
  | c :: cs =>
    match matchNumAt (c :: cs) with
    | some m => some m
    | none => findNum cs

def digitsToNat (ds : List Char) : Nat :=
  ds.foldl (fun acc c => 10 * acc + (c.toNat - 48)) 0

/-- Split a matched numeral at the dot (integer part, fractional part). -/
def splitFrac : List Char → List Char × List Char
  | [] => ([], [])
  | c :: r =>
    if c = '.' then ([], r)
    else
      let p := splitFrac r
      (c :: p.1, p.2)

def parseUnsigned (cs : List Char) : ℚ :=
  (digitsToNat (splitFrac cs).1 : ℚ) +
    (digitsToNat (splitFrac cs).2 : ℚ) / (10 : ℚ) ^ (splitFrac cs).2.length

/-- Float coercion of a matched numeral (modelled over the rationals). -/
def parseDecimal (cs : List Char) : ℚ :=
  match cs with
  | [] => parseUnsigned []
  | c :: r =>
    if c = '-' then -(parseUnsigned r)
    else if c = '+' then parseUnsigned r
    else parseUnsigned (c :: r)

def extractValue (s : String) : Option ℚ :=
  (findNum s.data).map parseDecimal

def extract_lod_flags (df : List LongRaw) : List Obs :=
  df.map (fun r =>
    ⟨r.station_id, r.date, r.method_id, extractValue r.value, flagOf r.value⟩)

/-! ## Station-code resolution (`map_station_ids`)

The template rows (station code, date, parameter cells) are left-merged with
the reference table `(station_code, station_id)` on the code column: each
row is repeated once per matching reference entry, and a row with no match
gets a null `station_id`.  The source then asserts that no `station_id` is
null, with the fixed message below, and drops the code column. -/

structure TRow where
  code : String
  date : Nat
  vals : List (Option String)
  deriving DecidableEq

structure SRow where
  station_id : Int
  date : Nat
  vals : List (Option String)
  deriving DecidableEq

/-- Left merge of the template rows with the station reference table on
`code` (`pd.merge(df, stn_df, how="left", on="code")`). -/
def stationMerge (df : List TRow) (stn_df : List (String × Int)) :
    List (TRow × Option Int) :=
  df.flatMap (fun r =>
    if stn_df.filter (fun s => decide (s.1 = r.code)) = []
    then [(r, (none : Option Int))]
    else (stn_df.filter (fun s => decide (s.1 = r.code))).map
      (fun s => (r, some s.2)))

def map_station_ids (df : List TRow) (stn_df : List (String × Int)) :
    Except String (List SRow) :=
  if (stationMerge df stn_df).all (fun x => x.2.isSome) then
    .ok ((stationMerge df stn_df).map (fun x => ⟨x.2.getD 0, x.1.date, x.1.vals⟩))
  else .error ("Some station codes cannot be matched to IDs.")

/-! ## Method-id mapping (`map_method_ids`) and reshaping (`wide_to_long`)

The static `meth_map` dictionary of the source maps flattened
`parameter_unit` headers to integer RESA2 method ids.  Its two string-to-
string entries (`Code` to `code` and `Date` to `date`) rename the identifier
columns, which this model carries as the `station_id`/`date` fields of a
row, so only the parameter entries appear here.  After the rename a column
label is either a matched integer id or the untouched original string
(`DataFrame.rename` ignores keys that are absent), which we represent by
`String ⊕ Int`. -/

def meth_map : List (String × Int) := [
  ("pH", 10268),
  ("Cond25_mS/m at 25C", 10260),
  ("NH4-N_µgN/L", 10264),
  ("Ca_mg/L", 10251),
  ("Mg_mg/L", 10261),
  ("Na_mg/L", 10263),
  ("K_mg/L", 10258),
  ("Alk_µeq/L", 10298),
  ("SO4_mg/L", 10271),
  ("NO3-N_µgN/L", 10265),
  ("Cl_mg/L", 10253),
  ("F_µg/L", 11121),
  ("TOTP_µgP/L", 10275),
  ("TOTN_µgN/L", 10274),
  ("ORTP_µgP/L", 10279),
  ("OKS_mgO/L", 10277),
  ("SiO2_mgSiO2/L", 10270),
  ("DOC_mgC/L", 10294),
  ("TOC_mgC/L", 10273),
  ("PERM_mgO/L", 10267),
  ("TAl_µg/L", 10249),
  ("RAl_µg/L", 10269),
  ("ILAl_µg/L", 10257),
  ("LAl_µg/L", 10292),
  ("Fe_Total_µg/L", 10256),
  ("Mn_Total_µg/L", 10262),
  ("Cd_Total_µg/L", 10252),
  ("Zn_Total_µg/L", 10276),
  ("Cu_Total_µg/L", 10254),
  ("Ni_Total_µg/L", 10281),
  ("Pb_Total_µg/L", 10266),
  ("Cr_Total_µg/L", 10285),
  ("As_Total_µg/L", 10293),
  ("Hg_Total_ng/L", 10921),
  ("Fe_Filt_µg/L", 11122),
  ("Mn_Filt_µg/L", 11123),
  ("Cd_Filt_µg/L", 11124),
  ("Zn_Filt_µg/L", 11125),
  ("Cu_Filt_µg/L", 11126),
  ("Ni_Filt_µg/L", 11127),
  ("Pb_Filt_µg/L", 11128),
  ("Cr_Filt_µg/L", 11129),
  ("As_Filt_µg/L", 11130),
  ("Hg_Filt_ng/L", 11131),
  ("COLOUR_mgPt/L", 10278),
  ("TURB_FTU", 10284),
  ("TEMP_C", 10272),
  ("RUNOFF_m3/s", 10288)]

def lookupMeth : String → List (String × Int) → Option Int
  | _, [] => none
  | s, p :: ps => if p.1 = s then some p.2 else lookupMeth s ps

def renameCol (s : String) : String ⊕ Int :=
  match lookupMeth s meth_map with
  | some n => Sum.inr n
  | none => Sum.inl s

structure WideRow where
  station_id : Int
  date : Nat
  vals : List (Option String)
  deriving DecidableEq

structure WideTable where
  cols : List String
  rows : List WideRow
  deriving DecidableEq

structure MappedTable where
  cols : List (String ⊕ Int)
  rows : List WideRow
  deriving DecidableEq

def map_method_ids (t : WideTable) : MappedTable :=
  ⟨t.cols.map renameCol, t.rows⟩

structure MeltRow where
  station_id : Int
  date : Nat
  col : String ⊕ Int
  value : Option String
  deriving DecidableEq

/-- Model of `pd.melt(df, id_vars=["station_id", "date"],
var_name="method_id")`: one output row per (value column, input row) pair,
stacked column-major. -/
def melt (t : MappedTable) : List MeltRow :=
  t.cols.enum.flatMap (fun ic =>
    t.rows.map (fun r => ⟨r.station_id, r.date, ic.2, r.vals.getD ic.1 none⟩))

/-- Python `int(...)` applied to a column label during `astype(int)`:
optional sign followed by digits (an integer id that was renamed stays an
integer and always coerces).  Leading/trailing whitespace and underscore
grouping, which CPython would also accept, are not modelled. -/
def toIntStrict (s : String) : Option Int :=
  match s.data with
  | [] => none
  | c :: cs =>
    if c = '-' then
      if cs = [] then none
      else if cs.all Char.isDigit then some (-(digitsToNat cs : Int)) else none
    else if c = '+' then
      if cs = [] then none
      else if cs.all Char.isDigit then some ((digitsToNat cs : Int)) else none
    else if (c :: cs).all Char.isDigit then some ((digitsToNat (c :: cs) : Int))
    else none

def mapExcept {α β : Type} (f : α → Except String β) : List α → Except String (List β)
  | [] => .ok []
  | x :: xs =>
    match f x with
    | .error e => .error e
    | .ok b =>
      match mapExcept f xs with
      | .error e => .error e
      | .ok bs => .ok (b :: bs)

/-- Coercion of one melted row by `astype(int)` on the `method_id` column:
a renamed integer id passes through; a string label must parse as an
integer, else a `ValueError` is raised. -/
def coerceRow (x : MeltRow) : Except String LongRaw :=
  match x.col with
  | Sum.inr n => .ok ⟨x.station_id, x.date, n, x.value.getD ""⟩
  | Sum.inl s =>
    match toIntStrict s with
    | some n => .ok ⟨x.station_id, x.date, n, x.value.getD ""⟩
    | none => .error ("invalid literal for int with base 10: " ++ s)

/-- Model of `wide_to_long`: melt, drop rows whose value is NaN, then
coerce `method_id` to integer. -/
def wide_to_long (t : MappedTable) : Except String (List LongRaw) :=
  mapExcept coerceRow ((melt t).filter (fun x => x.value.isSome))

/-! ## Persistence layer (`upload_samples`, `upload_chemistry`)

The database connection is an external collaborator; its observable state
is the two target tables, threaded through the model explicitly.  Inserting
never fails in the model, and each function returns the new database state
alongside the dataframes the source returns. -/

structure WSRow where
  water_sample_id : Int
  station_id : Int
  date : Nat
  depth1 : ℚ
  depth2 : ℚ
  deriving DecidableEq

structure ChemRow where
  method_id : Option Int
  value : Option ℚ
  flag1 : Option String
  water_sample_id : Option Int
  deriving DecidableEq

structure DB where
  water_samples : List WSRow
  chem_values : List ChemRow
  next_id : Int
  deriving DecidableEq

/-- Modelled from the spec: the water-sample identifier is "assigned by the
persistence layer on insert, then re-read and joined back" — the source
never supplies `water_sample_id` when appending to `resa2.water_samples`,
so the database must generate it.  We model the assignment as consecutive
ids starting from the next free one.  The appended candidate rows carry
`depth1 = depth2 = 0` exactly as built by the source. -/
def DB.insertSamples (db : DB) (pairs : List (Int × Nat)) : DB :=
  { db with
    water_samples := db.water_samples ++
      pairs.enum.map (fun p => ⟨db.next_id + p.1, p.2.1, p.2.2, 0, 0⟩),
    next_id := db.next_id + pairs.length }

/-- Long observation row carrying the joined `water_sample_id` (the three
identifier columns are nullable at this stage, as in the dataframe). -/
structure PRow where
  station_id : Int
  date : Nat
  method_id : Option Int
  value : Option ℚ
  flag1 : Option String
  water_sample_id : Option Int
  deriving DecidableEq

structure WSOut where
  water_sample_id : Option Int
  station_id : Int
  date : Nat
  deriving DecidableEq

/-- Candidate water samples: the distinct `(station_id, date)` pairs of the
observations, in first-occurrence order. -/
def samplePairs (df : List Obs) : List (Int × Nat) :=
  dedupBy (fun x => x) (df.map (fun r => (r.station_id, r.date)))

/-- Re-read of `resa2.water_samples` restricted to the relevant stations
(`WHERE station_id IN ...`; the source builds the same filter through two
string-formatting branches for one or several stations). -/
def sampleRead (df : List Obs) (db1 : DB) : List WSRow :=
  db1.water_samples.filter (fun w =>
    decide (w.station_id ∈ dedupBy (fun x => x) ((samplePairs df).map Prod.fst)))

/-- Left merge of the observations with the re-read sample table on
`(station_id, date)` (`pd.merge(df, ws_df, how="left", ...)`). -/
def sampleMerge (df : List Obs) (read : List WSRow) : List PRow :=
  df.flatMap (fun r =>
    if read.filter (fun w =>
        decide (w.station_id = r.station_id ∧ w.date = r.date)) = []
    then [⟨r.station_id, r.date, some r.method_id, r.value, r.flag1, none⟩]
    else (read.filter (fun w =>
        decide (w.station_id = r.station_id ∧ w.date = r.date))).map
      (fun w => ⟨r.station_id, r.date, some r.method_id, r.value, r.flag1,
        some w.water_sample_id⟩))

/-- Returned sample table: distinct `(water_sample_id, station_id, date)`
triples of the merged observations. -/
def wsOutOf (merged : List PRow) : List WSOut :=
  dedupBy (fun x => x)
    (merged.map (fun p => (⟨p.water_sample_id, p.station_id, p.date⟩ : WSOut)))

/-- Model of `upload_samples`: derive candidate samples, append them unless
`dry_run`, re-read the table, left-join ids back, and (only when not
`dry_run`) assert that every observation received a sample id.  The source
branches on `dry_run` twice around one straight-line body; the model splits
at the top, with identical semantics. -/
def upload_samples (df : List Obs) (db : DB) (dry_run : Bool) :
    Except String (List WSOut × List PRow × DB) :=
  if dry_run then
    .ok (wsOutOf (sampleMerge df (sampleRead df db)),
      sampleMerge df (sampleRead df db), db)
  else
    if (sampleMerge df (sampleRead df (db.insertSamples (samplePairs df)))).all
        (fun p => p.water_sample_id.isSome) then
      .ok (wsOutOf (sampleMerge df (sampleRead df (db.insertSamples (samplePairs df)))),
        sampleMerge df (sampleRead df (db.insertSamples (samplePairs df))),
        db.insertSamples (samplePairs df))
    else .error ("Assertion failed: a water_sample_id is null after upload.")

/-- Dropping `station_id` and `date` before the chemistry insert. -/
def stripRow (r : PRow) : ChemRow :=
  ⟨r.method_id, r.value, r.flag1, r.water_sample_id⟩

/-- Model of `upload_chemistry`: outside `dry_run`, assert that no
`method_id`, `water_sample_id` or `value` is null (in that order), then
append the stripped rows; in `dry_run` no check and no write happens.  The
`dtype` width computation of the source only tunes SQL column types and has
no observable effect modelled here. -/
def upload_chemistry (df : List PRow) (db : DB) (dry_run : Bool) :
    Except String (List ChemRow × DB) :=
  if dry_run then .ok (df.map stripRow, db)
  else if df.all (fun r => r.method_id.isSome) then
    if df.all (fun r => r.water_sample_id.isSome) then
      if df.all (fun r => r.value.isSome) then
        .ok (df.map stripRow,
          { db with chem_values := db.chem_values ++ df.map stripRow })
      else .error ("Assertion failed: a value is null.")
    else .error ("Assertion failed: a water_sample_id is null.")
  else .error ("Assertion failed: a method_id is null.")

/-! ## Theorems -/

/-! ## Counting lemmas -/

theorem dedupByAux_countP {α β : Type} [DecidableEq β] (f : α → β) (k : β) :
    ∀ (l : List α) (seen : List β),
      (dedupByAux f seen l).countP (fun x => decide (f x = k)) =
        if k ∈ l.map f ∧ k ∉ seen then 1 else 0 := by
  intro l
  induction l with
  | nil => intro seen; simp [dedupByAux]
  | cons x xs ih =>
    intro seen
    by_cases hx : f x ∈ seen
    · rw [dedupByAux, if_pos hx, ih seen]
      by_cases hk : k = f x
      · subst hk
        simp [hx]
      · simp [List.mem_cons, hk, Ne.symm hk]
    · rw [dedupByAux, if_neg hx]
      by_cases hk : k = f x
      · subst hk
        rw [List.countP_cons_of_pos _ _ (by simp)]
        rw [ih (f x :: seen)]
        simp [hx]
      · rw [List.countP_cons_of_neg _ _ (by simp [Ne.symm hk])]
        rw [ih (f x :: seen)]
        simp [List.mem_cons, hk, Ne.symm hk]

theorem dedupByAux_eq_self {α β : Type} [DecidableEq β] (f : α → β) :
    ∀ (l : List α) (seen : List β),
      (l.map f).Nodup → (∀ x ∈ l, f x ∉ seen) → dedupByAux f seen l = l := by
  intro l
  induction l with
  | nil => intro seen _ _; rfl
  | cons x xs ih =>
    intro seen hnd hseen
    have hx : f x ∉ seen := hseen x (List.mem_cons_self x xs)
    rw [dedupByAux, if_neg hx]
    have hnd' : (xs.map f).Nodup := (List.nodup_cons.mp (by simpa using hnd)).2
    have hxnot : f x ∉ xs.map f := (List.nodup_cons.mp (by simpa using hnd)).1
    have : ∀ y ∈ xs, f y ∉ f x :: seen := by
      intro y hy
      simp only [List.mem_cons]
      push_neg
      constructor
      · intro hcontra
        exact hxnot (hcontra ▸ List.mem_map_of_mem f hy)
      · exact hseen y (List.mem_cons_of_mem x hy)
    rw [ih (f x :: seen) hnd' this]

theorem mem_dedupByAux_id {β : Type} [DecidableEq β] :
    ∀ (l : List β) (seen : List β) (a : β),
      a ∈ dedupByAux (fun x => x) seen l ↔ (a ∈ l ∧ a ∉ seen) := by
  intro l
  induction l with
  | nil => intro seen a; simp [dedupByAux]
  | cons x xs ih =>
    intro seen a
    by_cases hx : x ∈ seen
    · rw [dedupByAux, if_pos hx, ih]
      constructor
      · rintro ⟨h1, h2⟩; exact ⟨List.mem_cons_of_mem x h1, h2⟩
      · rintro ⟨h1, h2⟩
        rcases List.mem_cons.mp h1 with h | h
        · exact absurd (h ▸ hx) h2
        · exact ⟨h, h2⟩
    · rw [dedupByAux, if_neg hx]
      rw [List.mem_cons, ih]
      constructor
      · rintro (h | ⟨h1, h2⟩)
        · exact ⟨h ▸ List.mem_cons_self x xs, h ▸ hx⟩
        · exact ⟨List.mem_cons_of_mem x h1, fun hc => h2 (List.mem_cons_of_mem x hc)⟩
      · rintro ⟨h1, h2⟩
        rcases List.mem_cons.mp h1 with h | h
        · exact Or.inl h
        · by_cases hax : a = x
          · exact Or.inl hax
          · exact Or.inr ⟨h, by simp [List.mem_cons, hax, h2]⟩

theorem insertSorted_countP (p : Key → Bool) (k : Key) :
    ∀ l : List Key,
      (insertSorted k l).countP p = l.countP p + if p k then 1 else 0 := by
  intro l
  induction l with
  | nil => simp [insertSorted, List.countP_cons]
  | cons x xs ih =>
    rw [insertSorted]
    by_cases h : keyLe k x = true
    · rw [if_pos h]
      simp only [List.countP_cons]
    · rw [if_neg h]
      simp only [List.countP_cons, ih]
      omega

theorem sortKeys_countP (p : Key → Bool) :
    ∀ l : List Key, (sortKeys l).countP p = l.countP p := by
  intro l
  induction l with
  | nil => rfl
  | cons x xs ih =>
    rw [sortKeys, insertSorted_countP, ih, List.countP_cons]

theorem filterMap_id_map_some {α : Type} (l : List α) :
    (l.map some).filterMap id = l := by
  induction l with
  | nil => rfl
  | cons x xs ih => simp [List.filterMap_cons, ih]

/-- C1: for every input table of long observations and for both duplicate
policies (`mean` and `drop`), the output of `remove_duplicates` contains
exactly one row per unique `(station_id, date, method_id)` key present in
the input (and no row whose key is absent from the input). -/
theorem remove_duplicates_unique_key (df : List Obs) (how : String)
    (hhow : how = "mean" ∨ how = "drop") (out : List Obs)
    (hout : remove_duplicates how df = .ok out) (k : Key) :
    out.countP (fun r => decide (r.key = k)) =
      if k ∈ df.map Obs.key then 1 else 0 := by
  rcases hhow with h | h <;> subst h
  · unfold remove_duplicates at hout
    rw [if_pos rfl] at hout
    injection hout with hout
    subst hout
    unfold groupMeanDedup
    rw [List.countP_map]
    have hcomp :
        ((fun r => decide (Obs.key r = k)) ∘ groupRow df) =
          fun x => decide (id x = k) := by
      funext x
      rfl
    rw [hcomp, sortKeys_countP]
    have h := dedupByAux_countP (id : Key → Key) k (df.map Obs.key) []
    simpa [dedupBy] using h
  · unfold remove_duplicates at hout
    rw [if_neg (by decide), if_pos rfl] at hout
    injection hout with hout
    subst hout
    have h := dedupByAux_countP Obs.key k df []
    simpa [drop_duplicates, dedupBy] using h

theorem remove_duplicates_unique_key_witness :
    ([⟨1, 0, 10268, some 1, none⟩] : List Obs).countP
        (fun r => decide (r.key = (((1 : Int), (0 : Nat), (10268 : Int)) : Key))) =
      if (((1 : Int), (0 : Nat), (10268 : Int)) : Key) ∈
          ([⟨1, 0, 10268, some 1, none⟩, ⟨1, 0, 10268, some 3, none⟩] : List Obs).map Obs.key
        then 1 else 0 :=
  remove_duplicates_unique_key
    [⟨1, 0, 10268, some 1, none⟩, ⟨1, 0, 10268, some 3, none⟩] "drop"
    (Or.inr rfl) [⟨1, 0, 10268, some 1, none⟩] (by rfl) (1, 0, 10268)

/-- C5: re-running the deduplicator with the `drop` policy on a table that is
already deduplicated (one row per `(station_id, date, method_id)` key, stated
as `Nodup` of the key column) returns the same table. -/
theorem remove_duplicates_drop_idempotent (df : List Obs)
    (h : (df.map Obs.key).Nodup) :
    remove_duplicates "drop" df = .ok df := by
  unfold remove_duplicates
  rw [if_neg (by decide), if_pos rfl]
  have hd : drop_duplicates df = df :=
    dedupByAux_eq_self Obs.key df [] h (by simp)
  rw [hd]

theorem remove_duplicates_drop_idempotent_witness :
    remove_duplicates "drop"
        [⟨1, 0, 10268, some 1, none⟩, ⟨1, 1, 10268, some 3, none⟩] =
      .ok [⟨1, 0, 10268, some 1, none⟩, ⟨1, 1, 10268, some 3, none⟩] :=
  remove_duplicates_drop_idempotent
    [⟨1, 0, 10268, some 1, none⟩, ⟨1, 1, 10268, some 3, none⟩] (by decide)

/-- C2 (counterexample): under the `mean` policy the output flag is NOT
always the flag of the first-encountered member of the group.  Here the
first member of the group has no flag (`none`), yet the output row carries
the below-LOD marker taken from the second member, because the pandas
aggregation `first` returns the first non-null entry of the group. -/
theorem remove_duplicates_mean_flag_cex :
    remove_duplicates "mean"
        [⟨1, 0, 10268, some 1, none⟩, ⟨1, 0, 10268, some 3, some ("<")⟩] =
      .ok [⟨1, 0, 10268, some 2, some ("<")⟩] ∧
    (⟨1, 0, 10268, some 1, none⟩ : Obs).flag1 = none ∧
    some ("<") ≠ (none : Option String) := by
  refine ⟨?_, rfl, by decide⟩
  unfold remove_duplicates
  rw [if_pos rfl]
  norm_num [groupMeanDedup, dedupBy, dedupByAux, sortKeys, insertSorted, keyLe,
    groupRow, meanOpt, firstAgg, Obs.key, List.filterMap, List.filter]
  simp

/-- C2 (amended): under the `mean` policy, for every group of rows sharing a
`(station_id, date, method_id)` key whose values are all non-null, the
deduplicator outputs a single row whose value is the arithmetic mean of the
group values and whose flag is the first NON-NULL flag of the group (null if
every member is unflagged); two rows with values 7.1 and 7.3 yield one row
with value 7.2. -/
theorem remove_duplicates_mean_value_flag (df out : List Obs)
    (hout : remove_duplicates "mean" df = .ok out) (r : Obs) (hr : r ∈ out)
    (vals : List ℚ)
    (hvals : (df.filter (fun x => decide (x.key = r.key))).map Obs.value =
      vals.map some)
    (hne : vals ≠ []) :
    r.value = some (vals.sum / (vals.length : ℚ)) ∧
      r.flag1 =
        (((df.filter (fun x => decide (x.key = r.key))).map Obs.flag1).filterMap
          id).head? := by
  unfold remove_duplicates at hout
  rw [if_pos rfl] at hout
  injection hout with hout
  subst hout
  obtain ⟨k, hk, hgr⟩ := List.mem_map.mp hr
  subst hgr
  constructor
  · show meanOpt
        ((df.filter (fun x => decide (x.key = (groupRow df k).key))).map Obs.value) =
      some (vals.sum / (vals.length : ℚ))
    rw [hvals]
    unfold meanOpt
    rw [filterMap_id_map_some, if_neg hne]
  · rfl

theorem remove_duplicates_mean_value_flag_witness :
    (⟨1, 0, 10268, some ((36 : ℚ)/5), none⟩ : Obs).value =
        some (([(71 : ℚ)/10, (73 : ℚ)/10].sum) /
          (([(71 : ℚ)/10, (73 : ℚ)/10].length : ℚ))) ∧
      (⟨1, 0, 10268, some ((36 : ℚ)/5), none⟩ : Obs).flag1 =
        (((([⟨1, 0, 10268, some ((71 : ℚ)/10), none⟩,
            ⟨1, 0, 10268, some ((73 : ℚ)/10), none⟩] : List Obs).filter
              (fun x => decide (x.key =
                (⟨1, 0, 10268, some ((36 : ℚ)/5), none⟩ : Obs).key))).map
            Obs.flag1).filterMap id).head? :=
  remove_duplicates_mean_value_flag
    [⟨1, 0, 10268, some ((71 : ℚ)/10), none⟩,
     ⟨1, 0, 10268, some ((73 : ℚ)/10), none⟩]
    [⟨1, 0, 10268, some ((36 : ℚ)/5), none⟩]
    (by
      unfold remove_duplicates
      rw [if_pos rfl]
      norm_num [groupMeanDedup, dedupBy, dedupByAux, sortKeys, insertSorted,
        keyLe, groupRow, meanOpt, firstAgg, Obs.key, List.filterMap, List.filter]
      simp)
    ⟨1, 0, 10268, some ((36 : ℚ)/5), none⟩ (List.mem_singleton.mpr rfl)
    [(71 : ℚ)/10, (73 : ℚ)/10] (by rfl) (by simp)

/-- C3: for every value cell read as text, the flag extractor assigns the
below-LOD marker "<" if the text contains `<`, else the above-LOD marker ">"
if it contains `>`, else no flag; in particular the inputs `<0.5`, `>10`,
`5.2` yield (below-LOD, 0.5), (above-LOD, 10.0), (none, 5.2). -/
theorem extract_lod_flags_spec :
    (∀ df : List LongRaw,
      (extract_lod_flags df).map Obs.flag1 =
        df.map (fun r =>
          if ('<') ∈ r.value.data then some ("<")
          else if ('>') ∈ r.value.data then some (">")
          else none)) ∧
    extract_lod_flags
        [⟨1, 0, 10268, "<0.5"⟩, ⟨1, 0, 10268, ">10"⟩, ⟨1, 0, 10268, "5.2"⟩] =
      [⟨1, 0, 10268, some ((1 : ℚ)/2), some ("<")⟩,
       ⟨1, 0, 10268, some ((10 : ℚ)), some (">")⟩,
       ⟨1, 0, 10268, some ((26 : ℚ)/5), none⟩] := by
  constructor
  · intro df
    rw [extract_lod_flags, List.map_map]
    rfl
  · have h1 : extractValue ("<0.5") = some ((1 : ℚ)/2) := by
      rw [show extractValue ("<0.5") =
          some (((0 : Nat) : ℚ) + ((5 : Nat) : ℚ) / (10 : ℚ) ^ (1 : Nat)) from rfl]
      norm_num
    have h2 : extractValue (">10") = some ((10 : ℚ)) := by
      rw [show extractValue (">10") =
          some (((10 : Nat) : ℚ) + ((0 : Nat) : ℚ) / (10 : ℚ) ^ (0 : Nat)) from rfl]
      norm_num
    have h3 : extractValue ("5.2") = some ((26 : ℚ)/5) := by
      rw [show extractValue ("5.2") =
          some (((5 : Nat) : ℚ) + ((2 : Nat) : ℚ) / (10 : ℚ) ^ (1 : Nat)) from rfl]
      norm_num
    show [(⟨1, 0, 10268, extractValue ("<0.5"), flagOf ("<0.5")⟩ : Obs),
          ⟨1, 0, 10268, extractValue (">10"), flagOf (">10")⟩,
          ⟨1, 0, 10268, extractValue ("5.2"), flagOf ("5.2")⟩] =
        [⟨1, 0, 10268, some ((1 : ℚ)/2), some ("<")⟩,
         ⟨1, 0, 10268, some ((10 : ℚ)), some (">")⟩,
         ⟨1, 0, 10268, some ((26 : ℚ)/5), none⟩]
    rw [h1, h2, h3]
    rfl

/-- C4 (counterexample): the numeric pattern is NOT "optional sign, digits,
optional fractional part".  For the cell text `-5` (a signed number without
a fractional part) the first regex alternative `[-+]?\d*\.\d+` fails, and
the leftmost match is the sign-less second alternative `\d+` at position 1,
so the extracted value is 5, not the claimed -5. -/
theorem extractValue_signed_integer_cex :
    extractValue ("-5") = some ((5 : ℚ)) ∧ ((5 : ℚ)) ≠ ((-5 : ℚ)) := by
  constructor
  · rw [show extractValue ("-5") =
        some (((5 : Nat) : ℚ) + ((0 : Nat) : ℚ) / (10 : ℚ) ^ (0 : Nat)) from rfl]
    norm_num
  · norm_num

/-- C4 (amended): the numeric portion is the leftmost match of the
alternation `[-+]?\d*\.\d+|\d+` coerced to float: a sign is captured only
together with a fractional part.  A signed number WITH a fractional part
keeps its sign (`-5.25` gives -5.25, and `+3.5` gives 3.5), while for a
signed number without a fractional part only the unsigned digits are
matched (`-5` gives 5); a plain decimal such as `5.2` is extracted intact,
and a cell with no numeric substring extracts to NaN. -/
theorem extractValue_amended :
    extractValue ("-5") = some ((5 : ℚ)) ∧
    extractValue ("-5.25") = some (-((21 : ℚ)/4)) ∧
    extractValue ("+3.5") = some ((7 : ℚ)/2) ∧
    extractValue ("5.2") = some ((26 : ℚ)/5) ∧
    extractValue ("abc") = none := by
  refine ⟨?_, ?_, ?_, ?_, rfl⟩
  · rw [show extractValue ("-5") =
        some (((5 : Nat) : ℚ) + ((0 : Nat) : ℚ) / (10 : ℚ) ^ (0 : Nat)) from rfl]
    norm_num
  · rw [show extractValue ("-5.25") =
        some (-(((5 : Nat) : ℚ) + ((25 : Nat) : ℚ) / (10 : ℚ) ^ (2 : Nat))) from rfl]
    norm_num
  · rw [show extractValue ("+3.5") =
        some (((3 : Nat) : ℚ) + ((5 : Nat) : ℚ) / (10 : ℚ) ^ (1 : Nat)) from rfl]
    norm_num
  · rw [show extractValue ("5.2") =
        some (((5 : Nat) : ℚ) + ((2 : Nat) : ℚ) / (10 : ℚ) ^ (1 : Nat)) from rfl]
    norm_num

theorem stationMerge_all_isSome (df : List TRow) (stn_df : List (String × Int)) :
    ((stationMerge df stn_df).all (fun x => x.2.isSome) = true) ↔
      ∀ r ∈ df, ∃ p ∈ stn_df, p.1 = r.code := by
  rw [List.all_eq_true]
  constructor
  · intro h r hr
    by_cases hfil : stn_df.filter (fun s => decide (s.1 = r.code)) = []
    · exfalso
      have hmem : ((r, (none : Option Int)) : TRow × Option Int) ∈
          stationMerge df stn_df := by
        refine List.mem_flatMap.mpr ⟨r, hr, ?_⟩
        rw [if_pos hfil]
        exact List.mem_singleton.mpr rfl
      simpa using h _ hmem
    · obtain ⟨p, hp⟩ := List.exists_mem_of_ne_nil _ hfil
      have hpf := List.mem_filter.mp hp
      exact ⟨p, hpf.1, of_decide_eq_true hpf.2⟩
  · intro h x hx
    obtain ⟨r, hr, hxr⟩ := List.mem_flatMap.mp hx
    by_cases hfil : stn_df.filter (fun s => decide (s.1 = r.code)) = []
    · exfalso
      obtain ⟨q, hq, hqc⟩ := h r hr
      have hqf : q ∈ stn_df.filter (fun s => decide (s.1 = r.code)) :=
        List.mem_filter.mpr ⟨hq, decide_eq_true hqc⟩
      rw [hfil] at hqf
      exact absurd hqf (List.not_mem_nil q)
    · rw [if_neg hfil] at hxr
      obtain ⟨p, _, hpx⟩ := List.mem_map.mp hxr
      rw [← hpx]
      rfl

/-- C6 (counterexample): the fatal unmatched-station failure does NOT list
the unmatched station codes.  Two inputs whose unmatched code sets differ
produce literally the same error value, the fixed assertion message, so the
error cannot name the offending codes. -/
theorem map_station_ids_fixed_error_cex :
    map_station_ids [⟨"STA1", 0, []⟩] [] =
      .error ("Some station codes cannot be matched to IDs.") ∧
    map_station_ids [⟨"STA2", 0, []⟩] [] =
      .error ("Some station codes cannot be matched to IDs.") ∧
    ("STA1" : String) ≠ ("STA2" : String) :=
  ⟨rfl, rfl, by decide⟩

/-- C6 (amended): for every input in which some station code has no match in
the reference table, the station-id mapping fails fatally with the fixed
error message, which does not name the unmatched codes; when every code
matches, the mapping succeeds. -/
theorem map_station_ids_matching (df : List TRow) (stn_df : List (String × Int)) :
    ((∀ r ∈ df, ∃ p ∈ stn_df, p.1 = r.code) →
      ∃ out, map_station_ids df stn_df = .ok out) ∧
    ((∃ r ∈ df, ∀ p ∈ stn_df, p.1 ≠ r.code) →
      map_station_ids df stn_df =
        .error ("Some station codes cannot be matched to IDs.")) := by
  constructor
  · intro h
    unfold map_station_ids
    rw [if_pos ((stationMerge_all_isSome df stn_df).mpr h)]
    exact ⟨_, rfl⟩
  · intro h
    obtain ⟨r, hr, hnone⟩ := h
    unfold map_station_ids
    rw [if_neg]
    intro hall
    obtain ⟨p, hp, hpc⟩ := (stationMerge_all_isSome df stn_df).mp hall r hr
    exact hnone p hp hpc

theorem map_station_ids_matching_witness :
    (∃ out, map_station_ids [⟨"STA1", 0, []⟩] [("STA1", 17)] = .ok out) ∧
      map_station_ids [⟨"STA9", 0, []⟩] [("STA1", 17)] =
        .error ("Some station codes cannot be matched to IDs.") :=
  ⟨(map_station_ids_matching [⟨"STA1", 0, []⟩] [("STA1", 17)]).1
      (by
        intro r hr
        refine ⟨("STA1", 17), List.mem_singleton.mpr rfl, ?_⟩
        rw [List.mem_singleton.mp hr]),
    (map_station_ids_matching [⟨"STA9", 0, []⟩] [("STA1", 17)]).2
      ⟨⟨"STA9", 0, []⟩, List.mem_singleton.mpr rfl, by decide⟩⟩

theorem mapExcept_error {α β : Type} (f : α → Except String β) :
    ∀ (l : List α) (x : α), x ∈ l → (∃ e, f x = .error e) →
      ∃ msg, mapExcept f l = .error msg := by
  intro l
  induction l with
  | nil => intro x hx _; exact absurd hx (List.not_mem_nil x)
  | cons y ys ih =>
    intro x hx he
    obtain ⟨e, he⟩ := he
    rcases List.mem_cons.mp hx with h | h
    · subst h
      exact ⟨e, by rw [mapExcept, he]⟩
    · cases hfy : f y with
      | error e2 => exact ⟨e2, by rw [mapExcept, hfy]⟩
      | ok b =>
        obtain ⟨msg, hm⟩ := ih x h ⟨e, he⟩
        rw [mapExcept, hfy, hm]
        exact ⟨msg, rfl⟩

/-- C9 (counterexample): an unmapped parameter column does NOT always make
the reshaper raise while coercing `method_id`.  A fully empty unmapped
column is deleted by the NaN filter before the coercion, so the pipeline
succeeds silently; and an unmapped column whose retained name happens to be
an integer literal ("42") coerces successfully, so its mislabelled
observation DOES reach later stages with method_id 42. -/
theorem wide_to_long_unmapped_cex :
    lookupMeth ("Foo_mgX/L") meth_map = none ∧
    lookupMeth ("42") meth_map = none ∧
    wide_to_long (map_method_ids ⟨["Foo_mgX/L"], [⟨1, 0, [none]⟩]⟩) = .ok [] ∧
    wide_to_long (map_method_ids ⟨["42"], [⟨1, 0, [some ("1.0")]⟩]⟩) =
      .ok [⟨1, 0, 42, "1.0"⟩] :=
  ⟨rfl, rfl, rfl, rfl⟩

/-- C9 (amended): a parameter column whose header is absent from the static
method map silently keeps its original string name through the rename step;
if moreover that name does not parse as an integer and the column contains
at least one non-null value, the reshaper raises an error when coercing
`method_id` to integer, so no such observation reaches later stages. -/
theorem wide_to_long_unmapped_column (t : WideTable) (j : Nat) (s : String)
    (hcol : t.cols.get? j = some s) (hunm : lookupMeth s meth_map = none)
    (hnoint : toIntStrict s = none)
    (hval : ∃ r ∈ t.rows, (r.vals.getD j none).isSome = true) :
    (map_method_ids t).cols.get? j = some (Sum.inl s) ∧
    ∃ msg, wide_to_long (map_method_ids t) = .error msg := by
  have hmapped : (map_method_ids t).cols.get? j = some (Sum.inl s) := by
    show (t.cols.map renameCol).get? j = some (Sum.inl s)
    rw [List.get?_map, hcol]
    simp [renameCol, hunm]
  refine ⟨hmapped, ?_⟩
  obtain ⟨r, hr, hv⟩ := hval
  have hcolmem : ((j, Sum.inl s) : Nat × (String ⊕ Int)) ∈ (map_method_ids t).cols.enum := by
    apply List.get?_mem
    rw [List.get?_enum, hmapped]
    rfl
  have hxmem : (⟨r.station_id, r.date, Sum.inl s, r.vals.getD j none⟩ : MeltRow) ∈
      melt (map_method_ids t) := by
    apply List.mem_flatMap.mpr
    exact ⟨(j, Sum.inl s), hcolmem, List.mem_map_of_mem _ hr⟩
  have hfil : (⟨r.station_id, r.date, Sum.inl s, r.vals.getD j none⟩ : MeltRow) ∈
      (melt (map_method_ids t)).filter (fun x => x.value.isSome) :=
    List.mem_filter.mpr ⟨hxmem, hv⟩
  apply mapExcept_error coerceRow _ _ hfil
  exact ⟨"invalid literal for int with base 10: " ++ s,
    by simp [coerceRow, hnoint]⟩

theorem wide_to_long_unmapped_column_witness :
    (map_method_ids ⟨["Foo_mgX/L"], [⟨1, 0, [some ("7.1")]⟩]⟩).cols.get? 0 =
        some (Sum.inl ("Foo_mgX/L")) ∧
      ∃ msg, wide_to_long (map_method_ids ⟨["Foo_mgX/L"], [⟨1, 0, [some ("7.1")]⟩]⟩) =
        .error msg :=
  wide_to_long_unmapped_column ⟨["Foo_mgX/L"], [⟨1, 0, [some ("7.1")]⟩]⟩ 0
    ("Foo_mgX/L") rfl rfl rfl
    ⟨⟨1, 0, [some ("7.1")]⟩, List.mem_singleton.mpr rfl, rfl⟩

theorem DB.insertSamples_length (db : DB) (pairs : List (Int × Nat)) :
    (db.insertSamples pairs).water_samples.length =
      db.water_samples.length + pairs.length := by
  simp [DB.insertSamples]

/-- C7: with the dry-run flag set, neither persistence operation changes the
row count of the water-sample or chemistry-value table; with dry-run unset,
a successful run grows the water-sample table by exactly the number of
derived candidate samples and the chemistry table by exactly the number of
value rows. -/
theorem upload_row_counts (df : List Obs) (pf : List PRow) (db : DB) :
    (∀ ws out db2, upload_samples df db true = .ok (ws, out, db2) →
      db2.water_samples.length = db.water_samples.length) ∧
    (∀ ws out db2, upload_samples df db false = .ok (ws, out, db2) →
      db2.water_samples.length =
        db.water_samples.length + (samplePairs df).length) ∧
    (∀ rows db2, upload_chemistry pf db true = .ok (rows, db2) →
      db2.chem_values.length = db.chem_values.length) ∧
    (∀ rows db2, upload_chemistry pf db false = .ok (rows, db2) →
      db2.chem_values.length = db.chem_values.length + pf.length) := by
  refine ⟨?_, ?_, ?_, ?_⟩
  · intro ws out db2 h
    rw [show upload_samples df db true =
        .ok (wsOutOf (sampleMerge df (sampleRead df db)),
          sampleMerge df (sampleRead df db), db) from rfl] at h
    have h2 : db = db2 := congrArg (fun t => t.2.2) (Except.ok.inj h)
    rw [← h2]
  · intro ws out db2 h
    by_cases hall :
        (sampleMerge df (sampleRead df (db.insertSamples (samplePairs df)))).all
          (fun p => p.water_sample_id.isSome) = true
    · have heq : upload_samples df db false =
          .ok (wsOutOf (sampleMerge df (sampleRead df (db.insertSamples (samplePairs df)))),
            sampleMerge df (sampleRead df (db.insertSamples (samplePairs df))),
            db.insertSamples (samplePairs df)) := by
        unfold upload_samples
        rw [if_neg (by simp), if_pos hall]
      rw [heq] at h
      have h2 : db.insertSamples (samplePairs df) = db2 :=
        congrArg (fun t => t.2.2) (Except.ok.inj h)
      rw [← h2]
      exact DB.insertSamples_length db (samplePairs df)
    · have heq : upload_samples df db false =
          .error ("Assertion failed: a water_sample_id is null after upload.") := by
        unfold upload_samples
        rw [if_neg (by simp), if_neg hall]
      rw [heq] at h
      exact absurd h (by simp)
  · intro rows db2 h
    rw [show upload_chemistry pf db true = .ok (pf.map stripRow, db) from rfl] at h
    have h2 : db = db2 := congrArg (fun t => t.2) (Except.ok.inj h)
    rw [← h2]
  · intro rows db2 h
    by_cases h1 : pf.all (fun r => r.method_id.isSome) = true
    · by_cases h2 : pf.all (fun r => r.water_sample_id.isSome) = true
      · by_cases h3 : pf.all (fun r => r.value.isSome) = true
        · have heq : upload_chemistry pf db false =
              .ok (pf.map stripRow,
                { db with chem_values := db.chem_values ++ pf.map stripRow }) := by
            unfold upload_chemistry
            rw [if_neg (by simp), if_pos h1, if_pos h2, if_pos h3]
          rw [heq] at h
          have h4 : { db with chem_values := db.chem_values ++ pf.map stripRow } = db2 :=
            congrArg (fun t => t.2) (Except.ok.inj h)
          rw [← h4]
          simp
        · have heq : upload_chemistry pf db false =
              .error ("Assertion failed: a value is null.") := by
            unfold upload_chemistry
            rw [if_neg (by simp), if_pos h1, if_pos h2, if_neg h3]
          rw [heq] at h
          exact absurd h (by simp)
      · have heq : upload_chemistry pf db false =
            .error ("Assertion failed: a water_sample_id is null.") := by
          unfold upload_chemistry
          rw [if_neg (by simp), if_pos h1, if_neg h2]
        rw [heq] at h
        exact absurd h (by simp)
    · have heq : upload_chemistry pf db false =
          .error ("Assertion failed: a method_id is null.") := by
        unfold upload_chemistry
        rw [if_neg (by simp), if_neg h1]
      rw [heq] at h
      exact absurd h (by simp)

theorem upload_row_counts_witness :
    ((⟨[], [], 1⟩ : DB).water_samples.length =
        (⟨[], [], 1⟩ : DB).water_samples.length) ∧
    ((⟨[⟨1, 1, 0, 0, 0⟩], [], 2⟩ : DB).water_samples.length =
        (⟨[], [], 1⟩ : DB).water_samples.length +
          (samplePairs [⟨1, 0, 10268, some 1, none⟩]).length) ∧
    ((⟨[], [], 1⟩ : DB).chem_values.length =
        (⟨[], [], 1⟩ : DB).chem_values.length) ∧
    ((⟨[], [⟨some 10268, some 1, none, some 5⟩], 1⟩ : DB).chem_values.length =
        (⟨[], [], 1⟩ : DB).chem_values.length +
          [(⟨1, 0, some 10268, some 1, none, some 5⟩ : PRow)].length) :=
  ⟨(upload_row_counts [⟨1, 0, 10268, some 1, none⟩]
        [⟨1, 0, some 10268, some 1, none, some 5⟩] ⟨[], [], 1⟩).1
      [⟨none, 1, 0⟩] [⟨1, 0, some 10268, some 1, none, none⟩] ⟨[], [], 1⟩ rfl,
    (upload_row_counts [⟨1, 0, 10268, some 1, none⟩]
        [⟨1, 0, some 10268, some 1, none, some 5⟩] ⟨[], [], 1⟩).2.1
      [⟨some 1, 1, 0⟩] [⟨1, 0, some 10268, some 1, none, some 1⟩]
      ⟨[⟨1, 1, 0, 0, 0⟩], [], 2⟩ rfl,
    (upload_row_counts [⟨1, 0, 10268, some 1, none⟩]
        [⟨1, 0, some 10268, some 1, none, some 5⟩] ⟨[], [], 1⟩).2.2.1
      [⟨some 10268, some 1, none, some 5⟩] ⟨[], [], 1⟩ rfl,
    (upload_row_counts [⟨1, 0, 10268, some 1, none⟩]
        [⟨1, 0, some 10268, some 1, none, some 5⟩] ⟨[], [], 1⟩).2.2.2
      [⟨some 10268, some 1, none, some 5⟩]
      ⟨[], [⟨some 10268, some 1, none, some 5⟩], 1⟩ rfl⟩

/-- C8: the chemistry persistence checks, only when dry-run is off, that no
row has a null `method_id`, `water_sample_id` or `value`, and fails with an
error before any write when the check is violated; in dry-run mode rows
with such nulls pass through unchanged without error. -/
theorem upload_chemistry_null_check (df : List PRow) (db : DB) :
    ((∃ r ∈ df, r.method_id = none ∨ r.water_sample_id = none ∨ r.value = none) →
      ∃ msg, upload_chemistry df db false = .error msg) ∧
    upload_chemistry df db true = .ok (df.map stripRow, db) := by
  refine ⟨?_, rfl⟩
  intro hnull
  obtain ⟨r, hr, hcase⟩ := hnull
  by_cases h1 : df.all (fun r => r.method_id.isSome) = true
  · by_cases h2 : df.all (fun r => r.water_sample_id.isSome) = true
    · by_cases h3 : df.all (fun r => r.value.isSome) = true
      · exfalso
        rcases hcase with hc | hc | hc
        · have := List.all_eq_true.mp h1 r hr
          rw [hc] at this
          simp at this
        · have := List.all_eq_true.mp h2 r hr
          rw [hc] at this
          simp at this
        · have := List.all_eq_true.mp h3 r hr
          rw [hc] at this
          simp at this
      · refine ⟨"Assertion failed: a value is null.", ?_⟩
        unfold upload_chemistry
        rw [if_neg (by simp), if_pos h1, if_pos h2, if_neg h3]
    · refine ⟨"Assertion failed: a water_sample_id is null.", ?_⟩
      unfold upload_chemistry
      rw [if_neg (by simp), if_pos h1, if_neg h2]
  · refine ⟨"Assertion failed: a method_id is null.", ?_⟩
    unfold upload_chemistry
    rw [if_neg (by simp), if_neg h1]

theorem upload_chemistry_null_check_witness :
    (∃ msg, upload_chemistry [⟨1, 0, some 10268, none, none, some 5⟩]
        ⟨[], [], 1⟩ false = .error msg) ∧
      upload_chemistry [⟨1, 0, some 10268, none, none, some 5⟩]
        ⟨[], [], 1⟩ true =
      .ok ([(⟨1, 0, some 10268, none, none, some 5⟩ : PRow)].map stripRow,
        ⟨[], [], 1⟩) :=
  ⟨(upload_chemistry_null_check [⟨1, 0, some 10268, none, none, some 5⟩]
        ⟨[], [], 1⟩).1
      ⟨⟨1, 0, some 10268, none, none, some 5⟩, List.mem_singleton.mpr rfl,
        Or.inr (Or.inr rfl)⟩,
    (upload_chemistry_null_check [⟨1, 0, some 10268, none, none, some 5⟩]
        ⟨[], [], 1⟩).2⟩

/-- C10: in dry-run mode the sample persistence still reads the existing
water-sample table and left-joins sample ids onto the observations by
`(station_id, date)`: the call returns without error and without touching
the database, and a merged observation has a null `water_sample_id` exactly
when its `(station_id, date)` pair is absent from the stored samples. -/
theorem upload_samples_dry_run (df : List Obs) (db : DB) :
    upload_samples df db true =
      .ok (wsOutOf (sampleMerge df (sampleRead df db)),
        sampleMerge df (sampleRead df db), db) ∧
    ∀ r ∈ sampleMerge df (sampleRead df db),
      (r.water_sample_id = none ↔
        ∀ w ∈ db.water_samples,
          ¬(w.station_id = r.station_id ∧ w.date = r.date)) := by
  refine ⟨rfl, ?_⟩
  intro r hmem
  obtain ⟨r0, hr0, hrin⟩ := List.mem_flatMap.mp hmem
  by_cases hfil : (sampleRead df db).filter (fun w =>
      decide (w.station_id = r0.station_id ∧ w.date = r0.date)) = []
  · rw [if_pos hfil] at hrin
    rw [List.mem_singleton.mp hrin]
    simp only [true_iff]
    intro w hw hcontra
    have hpair : (r0.station_id, r0.date) ∈ samplePairs df := by
      have : ((r0.station_id, r0.date) : Int × Nat) ∈
          df.map (fun r => (r.station_id, r.date)) :=
        List.mem_map_of_mem _ hr0
      exact (mem_dedupByAux_id _ [] _).mpr ⟨this, by simp⟩
    have hsid : r0.station_id ∈
        dedupBy (fun x => x) ((samplePairs df).map Prod.fst) := by
      have : r0.station_id ∈ (samplePairs df).map Prod.fst :=
        List.mem_map_of_mem Prod.fst hpair
      exact (mem_dedupByAux_id _ [] _).mpr ⟨this, by simp⟩
    have hwread : w ∈ sampleRead df db := by
      refine List.mem_filter.mpr ⟨hw, decide_eq_true ?_⟩
      rw [hcontra.1]
      exact hsid
    have hwfil : w ∈ (sampleRead df db).filter (fun w =>
        decide (w.station_id = r0.station_id ∧ w.date = r0.date)) :=
      List.mem_filter.mpr ⟨hwread, decide_eq_true ⟨hcontra.1, hcontra.2⟩⟩
    rw [hfil] at hwfil
    exact absurd hwfil (List.not_mem_nil w)
  · rw [if_neg hfil] at hrin
    obtain ⟨w, hwfil, hwr⟩ := List.mem_map.mp hrin
    have hw' := List.mem_filter.mp hwfil
    have hwdb : w ∈ db.water_samples := (List.mem_filter.mp hw'.1).1
    have hwmatch := of_decide_eq_true hw'.2
    rw [← hwr]
    simp only [iff_false, reduceCtorEq, false_iff]
    push_neg
    exact ⟨w, hwdb, hwmatch⟩

theorem upload_samples_dry_run_witness :
    ((⟨1, 1, some 10268, some 2, none, none⟩ : PRow).water_sample_id = none ↔
      ∀ w ∈ ([⟨7, 1, 0, 0, 0⟩] : List WSRow),
        ¬(w.station_id = (⟨1, 1, some 10268, some 2, none, none⟩ : PRow).station_id ∧
          w.date = (⟨1, 1, some 10268, some 2, none, none⟩ : PRow).date)) :=
  (upload_samples_dry_run
      [⟨1, 0, 10268, some 1, none⟩, ⟨1, 1, 10268, some 2, none⟩]
      ⟨[⟨7, 1, 0, 0, 0⟩], [], 8⟩).2
    ⟨1, 1, some 10268, some 2, none, none⟩
    (List.mem_cons_of_mem _ (List.mem_singleton.mpr rfl))

end ICPW
